import Mathlib

/-!
# Verification of the tomodoro timer core (src/tomodoro/main.py)

Shallow embedding of the timer engine and mode controller of the
tomodoro terminal countdown timer, together with theorems settling the
specification's claims about it.

Modelling conventions:
* `datetime` instants and `timedelta` durations are integers counting
  microseconds (Python's `datetime` has microsecond resolution).
  Python's floor division `//` and sign-of-divisor modulo `%` on
  integers coincide with Lean's `Int` `/` (`Int.ediv`) and `%`
  (`Int.emod`) whenever the divisor is positive, which it always is
  here (divisors 1000000, 86400, 60).
* Screen drawing (curses windows, glyph rendering, colors) is a write
  effect; where a claim needs it we record what would be drawn (e.g.
  the list of digit positions redrawn), and otherwise drop it.
* Methods that mutate `self` become functions `State → ... → State`;
  each call of `datetime.now()` becomes an explicit time parameter.
-/

namespace Tomodoro

/-- Embeds `Mode` enum from main.py: `BREAK = "Break"`, `WORK = "Work"`. -/
inductive Mode where
  | WORK : Mode
  | BREAK : Mode
deriving DecidableEq, Repr

/-- The `.value` of a `Mode` member (the string payload of the enum). -/
def Mode.value : Mode → String
  | .WORK => "Work"
  | .BREAK => "Break"

/-- The mode toggle in `Timer.switch_mode`:
`Mode.WORK if self.mode == Mode.BREAK else Mode.BREAK`. -/
def Mode.toggle (m : Mode) : Mode :=
  if m = Mode.BREAK then Mode.WORK else Mode.BREAK

/-- The `.seconds` attribute of a Python `timedelta` of `usec`
microseconds.  Python normalises a timedelta to
`days ∈ ℤ, 0 ≤ seconds < 86400, 0 ≤ microseconds < 10^6`, so
`.seconds = (total microseconds // 10^6) % 86400`
(floor division, nonnegative modulo).  Note that this is NOT clamped at
zero for negative durations: a timedelta of -1 second has
`.seconds = 86399`. -/
def timedelta_seconds (usec : Int) : Int :=
  (usec / 1000000) % 86400

namespace Timer

/-- Embeds `Timer._seconds_left`: `(self.end_time - datetime.now()).seconds`,
with `end_time` and `now` in microseconds. -/
def seconds_left (end_time now : Int) : Int :=
  timedelta_seconds (end_time - now)

/-- Embeds `Timer._pad`: pad a single-character string with a leading zero. -/
def _pad (num : String) : String :=
  if num.length = 1 then "0" ++ num else num

/-- Embeds `Timer._mins_str`: `_pad(str(int(self._seconds_left / 60)))`.
`_seconds_left` is a `.seconds` field, hence a nonnegative int, so we
take it as a `Nat`; Python's `int(x / 60)` truncation on a nonnegative
int equals `Nat` floor division (the float quotient is exact enough
below 2^52). -/
def mins_str (s : Nat) : String :=
  _pad (toString (s / 60))

/-- Embeds `Timer._secs_str`: `_pad(str(int(self._seconds_left % 60)))`. -/
def secs_str (s : Nat) : String :=
  _pad (toString (s % 60))

/-- Embeds `Timer._timer_str`: `self._mins_str + self._secs_str`,
as a function of the (nonnegative) seconds value. -/
def timer_str (s : Nat) : String :=
  mins_str s ++ secs_str s

/-- Embeds `Timer._timer_str` read off the live state: formats
`_seconds_left` for the given end time and current time. -/
def timer_str_of (end_time now : Int) : String :=
  timer_str (seconds_left end_time now).toNat

/-- Embeds `Timer._char_pos_changed`: enumerate `last_displayed_time_str`,
compare character-by-character with the current timer string, return
the positions that differ (in ascending order, as the Python loop
appends them). -/
def char_pos_changed (last current : String) : List Nat :=
  (List.range last.length).filter
    (fun i => current.data.getD i ' ' ≠ last.data.getD i ' ')

end Timer

/-- The `Timer` state: the fields of the Python object that the timer
engine reads and writes (screen windows excluded; the per-mode
`mode_properties` minutes are the two integer fields, their colors and
prompt strings being fixed display constants). -/
structure TimerState where
  mode : Mode
  end_time : Int
  start_time : Int
  set_seconds : Int
  last_displayed_time_str : String
  work_minutes : Int
  break_minutes : Int
deriving DecidableEq, Repr

/-- Embeds `self.mode_properties[m]["minutes"]`. -/
def TimerState.minutes (st : TimerState) : Mode → Int
  | .WORK => st.work_minutes
  | .BREAK => st.break_minutes

/-- Embeds `self.mode_properties[m]["minutes"] = v`. -/
def TimerState.with_minutes (st : TimerState) : Mode → Int → TimerState
  | .WORK, v => { st with work_minutes := v }
  | .BREAK, v => { st with break_minutes := v }

/-- Embeds `self.mode_properties[m]["cmdwin_prompt"]`. -/
def TimerState.cmdwin_prompt : Mode → String
  | .WORK => "Working..."
  | .BREAK => "On break..."

namespace Timer

/-- Embeds `Timer._refresh_timer_windows(initial)`: computes the positions to
redraw (`[0,1,2,3]` if `initial` else the character diff), draws those
glyphs, then commits `last_displayed_time_str = self._timer_str`.
The Python method reads `datetime.now()` (through `_timer_str`) both
when diffing and again when committing; `t_diff` and `t_commit` are
those two read times.  Returns the new state together with the list of
positions that were redrawn. -/
def _refresh_timer_windows (st : TimerState) (initial : Bool)
    (t_diff t_commit : Int) : TimerState × List Nat :=
  let pos_changed :=
    if initial then [0, 1, 2, 3]
    else char_pos_changed st.last_displayed_time_str
      (timer_str_of st.end_time t_diff)
  ({ st with last_displayed_time_str := timer_str_of st.end_time t_commit },
   pos_changed)

/-- Embeds `Timer.set_timer(minutes)`:
`set_seconds = minutes*60 + 1`, `end_time = now + set_seconds` seconds
(`now` is the one `datetime.now()` call in `set_timer`), then a full
refresh (`initial=True`) whose own time reads happen at `t_refresh`.
Returns the new state and the positions redrawn by the refresh. -/
def set_timer (st : TimerState) (minutes : Int) (now t_refresh : Int) :
    TimerState × List Nat :=
  let set_seconds := minutes * 60 + 1
  let st := { st with
    set_seconds := set_seconds
    end_time := now + set_seconds * 1000000 }
  _refresh_timer_windows st true t_refresh t_refresh

end Timer

/-- The `CommandWindow` state the core reads and writes: its current
prompt text and whether `getch` input is blocking (curses
`timeout(-1)`) or non-blocking (`timeout(0)`). -/
structure CmdWin where
  prompt : String
  blocking : Bool
deriving DecidableEq, Repr

namespace CmdWin

/-- The default prompt of `CommandWindow._change_prompt`. -/
def default_prompt : String := "Select option (q to quit)"

/-- Embeds `CommandWindow._change_prompt(prompt)` (the `centered` flag only
moves where the text is drawn, which is a pure screen effect; the
Python default for `prompt` is `default_prompt`, passed explicitly by
callers here). -/
def _change_prompt (cw : CmdWin) (prompt : String) : CmdWin :=
  { cw with prompt := prompt }

/-- The `finally` block of `CommandWindow._temp_change`: reset the
prompt to the default and set blocking input (`timeout(-1)`). -/
def _temp_change_restore (cw : CmdWin) : CmdWin :=
  { _change_prompt cw default_prompt with blocking := true }

/-- Embeds `CommandWindow._get_mins`: `int(self.win.getstr(...).decode(...))`
then clamp to `[1, 99]`.  The argument is the result of the
`int(...)` conversion of the line the user typed: `none` when the text
is non-numeric or empty (`int` raises `ValueError`), `some m` when it
parses as the integer `m`.  A raised `ValueError` propagates, hence the
`Option` result. -/
def _get_mins (input : Option Int) : Option Int :=
  input.map (fun mins => if mins > 99 then 99 else if mins < 1 then 1 else mins)

end CmdWin

namespace Timer

/-- The prompt shown by `Timer.switch_mode` while asking for minutes:
`f"{self.mode.value} minutes [{self.mode_properties[self.mode]['minutes']}]: ? "`. -/
def configure_prompt (m : Mode) (mins : Int) : String :=
  m.value ++ " minutes [" ++ toString mins ++ "]: ? "

/-- Embeds `Timer.switch_mode(new_mode)`: set `self.mode` (explicit mode, or
toggle); inside `cmdwin._temp_change()` show the configure prompt and
try `self.mode_properties[self.mode]["minutes"] = self.cmdwin._get_mins()`,
swallowing any exception (invalid input leaves the setting unchanged);
on exit of the `with` block the command window is restored; finally
`set_timer` with the resulting minutes.  `input` is the parse of the
line the user typed (see `CmdWin._get_mins`); `now` and `t_refresh` are
the `datetime.now()` reads inside `set_timer`.  Returns the new timer
state, the command-window state, the prompt that was shown, and the
digit positions redrawn by `set_timer`. -/
def switch_mode (st : TimerState) (cw : CmdWin) (new_mode : Option Mode)
    (input : Option Int) (now t_refresh : Int) :
    TimerState × CmdWin × String × List Nat :=
  let st := { st with mode :=
    match new_mode with
    | some m => m
    | none => st.mode.toggle }
  let prompt := configure_prompt st.mode (st.minutes st.mode)
  let st :=
    match CmdWin._get_mins input with
    | some mins => st.with_minutes st.mode mins
    | none => st
  let cw := CmdWin._temp_change_restore (CmdWin._change_prompt cw prompt)
  let r := set_timer st (st.minutes st.mode) now t_refresh
  (r.1, cw, prompt, r.2)

/-- One iteration's worth of external input to the countdown loop: the
`getch()` result in non-blocking mode (`-1` when no key is pending)
and the `datetime.now()` instant at which `_seconds_left` is read
during that iteration. -/
structure Tick where
  key : Int
  now : Int
deriving DecidableEq, Repr

/-- How the `while True` loop in `Timer.start_timer_loop` ended. -/
inductive ExitKind where
  | key (k : Int) : ExitKind
  | expiry : ExitKind
  | pending : ExitKind
deriving DecidableEq, Repr

/-- The `while True` body of `Timer.start_timer_loop`:
`getch`; break if the key is `s`/`w`/`b` (115/119/98); otherwise
`_refresh_timer_windows()`, `set_seconds = _seconds_left`, break if
`set_seconds < 1`, sleep, repeat.  The loop consumes one `Tick` per
iteration; an exhausted tick list means the modelled input ends while
the loop would still be running (`ExitKind.pending` — the real loop
never terminates this way).  Returns the state at loop exit, the exit
kind, and the ticks of the completed (non-break) iterations in order. -/
def timer_loop : List Tick → TimerState → TimerState × ExitKind × List Tick
  | [], st => (st, .pending, [])
  | tk :: rest, st =>
    if tk.key = 115 ∨ tk.key = 119 ∨ tk.key = 98 then
      (st, .key tk.key, [])
    else
      let st := (_refresh_timer_windows st false tk.now tk.now).1
      let st := { st with set_seconds := seconds_left st.end_time tk.now }
      if st.set_seconds < 1 then
        (st, .expiry, [tk])
      else
        let r := timer_loop rest st
        (r.1, r.2.1, tk :: r.2.2)

/-- The countdown initialisation at the top of `Timer.start_timer_loop`:
`self.start_time = datetime.now()`;
`self.end_time = self.start_time + timedelta(seconds=self.set_seconds)`. -/
def begin_countdown (st : TimerState) (now : Int) : TimerState :=
  { st with start_time := now, end_time := now + st.set_seconds * 1000000 }

/-- Everything observable about one `Timer.start_timer_loop` call:
final timer and command-window state, how many times `_alarm` fired,
how the loop exited, the completed loop iterations, and the configure
prompt shown by the follow-up `switch_mode` (if it ran). -/
structure RunOutcome where
  timer : TimerState
  cmdwin : CmdWin
  alarms : Nat
  exit : ExitKind
  consumed : List Tick
  config_prompt : Option String
deriving DecidableEq, Repr

end Timer

/-! ## Header (main.py `Header` class)

The header is a row of boxed sections.  The claims about it concern
the "temporary override, guaranteed restore" discipline, so we track,
per section, the last content written to it. -/

/-- Color-pair constants from the top of main.py. -/
def DEFAULT_COLOR : Nat := 1

/-- Embeds `GRAY_COLOR = 4`. -/
def GRAY_COLOR : Nat := 4

/-- What `Header.update_header_section` writes into one section window:
the text, its color, the box/background color, and whether
`curses.A_BOLD` was merged in. -/
structure HeaderSection where
  text : String
  text_color : Nat
  border_color : Nat
  bold : Bool
deriving DecidableEq, Repr

/-- The `Header` object's attribute state.  `sections` holds the last
content written to each section window (`none` = nothing written yet).

The Python class annotates `orig_options` and `__init__` assigns
`self.orig_options = options`, but no statement in the program ever
assigns the attribute `_orig_options` that `_restore_defaults` reads;
in Python, reading an attribute that was never assigned raises
`AttributeError`.  We model that attribute as the separate field
`_orig_options_attr`, `none` while unassigned. -/
structure Header where
  sections : List (Option HeaderSection)
  orig_options : List (String × Nat)
  orig_border_color : Nat
  _orig_options_attr : Option (List (String × Nat))
deriving DecidableEq, Repr

namespace Header

/-- Embeds `Header.update_header_section(section_pos, text, text_color,
border_color, a_attrs)`: clear the section window, set its background
and box to `border_color`, write `text` with `text_color` (plus bold
when `a_attrs` is `A_BOLD`). -/
def update_header_section (h : Header) (section_pos : Nat) (text : String)
    (text_color border_color : Nat) (bold : Bool) : Header :=
  { h with sections :=
      h.sections.set section_pos (some ⟨text, text_color, border_color, bold⟩) }

/-- Embeds `Header._restore_defaults`: for each `(text, color)` in
`self._orig_options` (sic — the attribute assigned by `__init__` is
`orig_options`, without the leading underscore), rewrite that section
with the original text and color, the original border color, and bold
for section 0.  Reading the never-assigned `_orig_options` raises
`AttributeError`, modelled as the `Except.error` branch. -/
def _restore_defaults (h : Header) : Except String Header :=
  match h._orig_options_attr with
  | none => .error "AttributeError: Header object has no attribute _orig_options"
  | some opts =>
    .ok <| (opts.enum).foldl
      (fun acc p =>
        update_header_section acc p.1 p.2.1 p.2.2 acc.orig_border_color
          (p.1 == 0))
      h

/-- Embeds `Header.__init__(options, scn_w, header_height, border_color)`:
raise `ValueError` when the summed section widths (text length + 4
each) exceed `scn_w - 2`; otherwise record `orig_options` and
`orig_border_color`, create the (empty) section windows, and call
`self._restore_defaults()`.  `header_height` only sizes the curses
windows and does not appear in the tracked state. -/
def init (options : List (String × Nat)) (scn_w : Int) (border_color : Nat) :
    Except String Header :=
  let header_length : Int := (options.map (fun o => (o.1.length : Int) + 4)).sum
  if header_length > scn_w - 2 then
    .error "ValueError: Header too long for screen"
  else
    let h : Header :=
      { sections := List.replicate options.length none
        orig_options := options
        orig_border_color := border_color
        _orig_options_attr := none }
    h._restore_defaults

end Header

/-- The header options `main()` constructs the `Header` with. -/
def main_header_options : List (String × Nat) :=
  [("tomodoro.", 1), ("s start", 1), ("w work", 2), ("b break", 3)]

namespace Timer

/-- Embeds `Timer.start_timer_loop()`: initialise `start_time`/`end_time`;
inside `with cmdwin._temp_change()` and, nested, `with
header._temp_change()`, make input non-blocking, override the three
header hint sections, show the mode's running prompt, and run the
`while True` loop.  Breaking out of the loop exits the inner `with`
first: its `finally` calls `Header._restore_defaults`, and if that
raises (reading the never-assigned `_orig_options`, see
`Header._restore_defaults`), the exception propagates — the outer
`cmdwin._temp_change()` `finally` still restores the command window,
then re-raises, so the function ends in that exception (the `Except.error`
carries it with the restored command window) and the trailing
`if self.set_seconds < 1: self._alarm(); self.switch_mode()` never
runs.  Only if the header restore returns normally does execution
reach that tail, firing the alarm once and switching mode on expiry.
`now` is the initial `datetime.now()`; `ticks` feeds the loop;
`input`, `t_switch`, `t_refresh` feed the possible `switch_mode`
call. -/
def start_timer_loop (st : TimerState) (cw : CmdWin) (header : Header)
    (now : Int) (ticks : List Tick) (input : Option Int)
    (t_switch t_refresh : Int) : Except (String × CmdWin) RunOutcome :=
  let st := begin_countdown st now
  let cw := CmdWin._change_prompt { cw with blocking := false }
    (TimerState.cmdwin_prompt st.mode)
  let header := header.update_header_section 1 "s stop " DEFAULT_COLOR
    GRAY_COLOR false
  let header := header.update_header_section 2 "w work" GRAY_COLOR
    GRAY_COLOR false
  let header := header.update_header_section 3 "b break" GRAY_COLOR
    GRAY_COLOR false
  let r := timer_loop ticks st
  match header._restore_defaults with
  | .error e => .error (e, CmdWin._temp_change_restore cw)
  | .ok _ =>
    let cw := CmdWin._temp_change_restore cw
    if r.1.set_seconds < 1 then
      let sw := switch_mode r.1 cw none input t_switch t_refresh
      .ok ⟨sw.1, sw.2.1, 1, r.2.1, r.2.2, some sw.2.2.1⟩
    else
      .ok ⟨r.1, cw, 0, r.2.1, r.2.2, none⟩

end Timer

/-! ## Shared lemmas -/

/-- The character diff of a string against itself is empty. -/
theorem char_pos_changed_self (s : String) : Timer.char_pos_changed s s = [] := by
  simp [Timer.char_pos_changed]

/-- Embeds `str(n)` for `n < 100`, padded by `Timer._pad`, always has exactly
two characters. -/
theorem pad_toString_length_two :
    ∀ n : Nat, n < 100 → (Timer._pad (toString n)).length = 2 := by
  decide

/-- Embeds `minutes` only reads the two per-mode minute fields. -/
theorem minutes_ext (a b : TimerState) (hw : a.work_minutes = b.work_minutes)
    (hb : a.break_minutes = b.break_minutes) (m : Mode) :
    a.minutes m = b.minutes m := by
  cases m <;> simp [TimerState.minutes, hw, hb]

/-- The countdown loop never changes `end_time`, `mode`, or the
per-mode configured minutes: each iteration only refreshes the display
and reassigns `set_seconds`. -/
theorem timer_loop_frame :
    ∀ (ticks : List Timer.Tick) (st : TimerState),
      (Timer.timer_loop ticks st).1.end_time = st.end_time ∧
      (Timer.timer_loop ticks st).1.mode = st.mode ∧
      (Timer.timer_loop ticks st).1.work_minutes = st.work_minutes ∧
      (Timer.timer_loop ticks st).1.break_minutes = st.break_minutes := by
  intro ticks
  induction ticks with
  | nil => exact fun st => ⟨rfl, rfl, rfl, rfl⟩
  | cons tk rest ih =>
    intro st
    simp only [Timer.timer_loop]
    split
    · exact ⟨rfl, rfl, rfl, rfl⟩
    · split
      · exact ⟨rfl, rfl, rfl, rfl⟩
      · exact ih _

/-- If the loop exits through the expiry branch, the final
`set_seconds` is the `_seconds_left` value it just observed:
below 1 and (being a `timedelta.seconds` field) nonnegative, i.e. 0. -/
theorem timer_loop_expiry_lt_one :
    ∀ (ticks : List Timer.Tick) (st : TimerState),
      (Timer.timer_loop ticks st).2.1 = Timer.ExitKind.expiry →
      (Timer.timer_loop ticks st).1.set_seconds < 1 ∧
      0 ≤ (Timer.timer_loop ticks st).1.set_seconds := by
  intro ticks
  induction ticks with
  | nil => intro st h; exact absurd h (by simp [Timer.timer_loop])
  | cons tk rest ih =>
    intro st
    simp only [Timer.timer_loop]
    split
    · intro h; exact absurd h (by simp)
    · split
      case isTrue hlt =>
        intro _
        refine ⟨hlt, ?_⟩
        exact Int.emod_nonneg _ (by decide)
      case isFalse hge =>
        exact ih _

/-- If the loop entered with `set_seconds ≥ 1` and exits on a command
key, the final `set_seconds` is still at least 1 (the expiry branch
would have fired otherwise). -/
theorem timer_loop_key_ge_one :
    ∀ (ticks : List Timer.Tick) (st : TimerState) (k : Int),
      1 ≤ st.set_seconds →
      (Timer.timer_loop ticks st).2.1 = Timer.ExitKind.key k →
      1 ≤ (Timer.timer_loop ticks st).1.set_seconds := by
  intro ticks
  induction ticks with
  | nil => intro st k h hk; exact absurd hk (by simp [Timer.timer_loop])
  | cons tk rest ih =>
    intro st k h
    simp only [Timer.timer_loop]
    split
    · exact fun _ => h
    · split
      case isTrue hlt => intro hk; exact absurd hk (by simp)
      case isFalse hge =>
        exact ih _ k (Int.not_lt.mp hge)

/-- Lemma: `switch_mode` with no explicit mode toggles the current mode and
shows the configure prompt for the toggled mode with that mode's
previously configured minutes. -/
theorem switch_mode_none_toggles (st : TimerState) (cw : CmdWin)
    (input : Option Int) (now t_refresh : Int) :
    (Timer.switch_mode st cw none input now t_refresh).1.mode = st.mode.toggle ∧
    (Timer.switch_mode st cw none input now t_refresh).2.2.1
      = Timer.configure_prompt st.mode.toggle (st.minutes st.mode.toggle) := by
  obtain ⟨mode, et, stt, ss, l, wm, bm⟩ := st
  cases input <;> cases mode <;> exact ⟨rfl, rfl⟩

/-! ## Claim theorems -/

/-- Claim C1 (counterexample to the claim as stated): with the end time
one second in the past (`endTime = 0`, `now = 10^6` μs),
`remainingSeconds()` returns 86399, not
`max 0 (floor(endTime - now)) = 0`: Python's `timedelta.seconds` field
wraps modulo one day for negative durations instead of clamping. -/
theorem c1_counterexample :
    Timer.seconds_left 0 1000000 = 86399 ∧
    Timer.seconds_left 0 1000000 ≠ max 0 ((0 - 1000000 : Int) / 1000000) := by
  decide

/-- Claim C1 (amended): `remainingSeconds()` is a pure function of the
end time and the current time; whenever `now ≤ endTime` and less than
one day remains it equals `max 0 (floor(endTime - now))` seconds, and
its value is never negative.  (The original claim's
`remainingSeconds() = 0` for `now > endTime` fails, see
`c1_counterexample`.) -/
theorem c1_seconds_left_clamped (end_time now : Int)
    (h1 : now ≤ end_time) (h2 : end_time - now < 86400 * 1000000) :
    Timer.seconds_left end_time now = max 0 ((end_time - now) / 1000000) ∧
    0 ≤ Timer.seconds_left end_time now := by
  unfold Timer.seconds_left timedelta_seconds
  omega

/-- Witness for C1 at `endTime = 10^6` μs, `now = 0`. -/
theorem c1_seconds_left_clamped_witness :
    Timer.seconds_left 1000000 0 = max 0 ((1000000 - 0 : Int) / 1000000) ∧
    0 ≤ Timer.seconds_left 1000000 0 :=
  c1_seconds_left_clamped 1000000 0 (by decide) (by decide)

/-- Claim C3: for every `minutes ∈ [1, 99]`, `set_timer(minutes)` sets
`set_seconds := minutes*60 + 1` and `end_time := now + set_seconds`
(microseconds), and `remainingSeconds()` evaluated at any instant `t`
within one second after `now` equals `minutes*60` or `minutes*60 + 1`. -/
theorem c3_set_timer (st : TimerState) (minutes now t_refresh t : Int)
    (hm1 : 1 ≤ minutes) (hm2 : minutes ≤ 99)
    (ht1 : now ≤ t) (ht2 : t < now + 1000000) :
    (Timer.set_timer st minutes now t_refresh).1.set_seconds = minutes * 60 + 1 ∧
    (Timer.set_timer st minutes now t_refresh).1.end_time
      = now + (minutes * 60 + 1) * 1000000 ∧
    (Timer.seconds_left (Timer.set_timer st minutes now t_refresh).1.end_time t
        = minutes * 60 ∨
     Timer.seconds_left (Timer.set_timer st minutes now t_refresh).1.end_time t
        = minutes * 60 + 1) := by
  refine ⟨rfl, rfl, ?_⟩
  have he : (Timer.set_timer st minutes now t_refresh).1.end_time
      = now + (minutes * 60 + 1) * 1000000 := rfl
  rw [he]
  unfold Timer.seconds_left timedelta_seconds
  omega

/-- Witness for C3: `set_timer(25)` at `now = 0`, evaluated half a
second later. -/
theorem c3_set_timer_witness :
    (Timer.set_timer ⟨Mode.WORK, 0, 0, 0, "", 25, 5⟩ 25 0 0).1.set_seconds
      = 25 * 60 + 1 ∧
    (Timer.set_timer ⟨Mode.WORK, 0, 0, 0, "", 25, 5⟩ 25 0 0).1.end_time
      = 0 + (25 * 60 + 1) * 1000000 ∧
    (Timer.seconds_left
        (Timer.set_timer ⟨Mode.WORK, 0, 0, 0, "", 25, 5⟩ 25 0 0).1.end_time 500000
        = 25 * 60 ∨
     Timer.seconds_left
        (Timer.set_timer ⟨Mode.WORK, 0, 0, 0, "", 25, 5⟩ 25 0 0).1.end_time 500000
        = 25 * 60 + 1) :=
  c3_set_timer ⟨Mode.WORK, 0, 0, 0, "", 25, 5⟩ 25 0 0 500000
    (by decide) (by decide) (by decide) (by decide)

/-- Claim C5 (counterexample to the claim as stated): the diff on an
empty `lastDisplayedDigits` returns the empty list — not all four
positions — and immediately after `set_timer` the stored
`lastDisplayedDigits` is the just-rendered string (`"2501"` for 25
minutes at `now = 0`), not the empty string, so the first
`changedPositions()` after `set_timer` (no time elapsed) is also
empty rather than all four positions. -/
theorem c5_counterexample :
    Timer.char_pos_changed "" "2500" = [] ∧
    Timer.char_pos_changed "" "2500" ≠ [0, 1, 2, 3] ∧
    (Timer.set_timer ⟨Mode.WORK, 0, 0, 0, "", 25, 5⟩ 25 0
        0).1.last_displayed_time_str = "2501" ∧
    Timer.char_pos_changed
      (Timer.set_timer ⟨Mode.WORK, 0, 0, 0, "", 25, 5⟩ 25 0
        0).1.last_displayed_time_str
      (Timer.timer_str_of
        (Timer.set_timer ⟨Mode.WORK, 0, 0, 0, "", 25, 5⟩ 25 0 0).1.end_time 0)
      = [] := by
  decide

/-- Claim C5 (amended): `set_timer` forces the full redraw by calling the
refresh with `initial=True`, which redraws all four positions
unconditionally (bypassing the diff) and then commits
`lastDisplayedDigits := formattedDigits()`; `changedPositions()` with
an empty `lastDisplayedDigits` returns the empty list, since the diff
iterates over the previously displayed string. -/
theorem c5_set_timer_redraw (st : TimerState) (minutes now t_refresh : Int) :
    (Timer.set_timer st minutes now t_refresh).2 = [0, 1, 2, 3] ∧
    (Timer.set_timer st minutes now t_refresh).1.last_displayed_time_str
      = Timer.timer_str_of (now + (minutes * 60 + 1) * 1000000) t_refresh ∧
    (∀ s : String, Timer.char_pos_changed "" s = []) :=
  ⟨rfl, rfl, fun _ => rfl⟩

/-- Claim C6: for a four-character `lastDisplayedDigits`,
`changedPositions()` returns exactly the positions `0..3` whose
character differs from the current timer string, and on
`"2459"` vs `"2500"` it returns `[1, 2, 3]` and not position 0. -/
theorem c6_char_diff (last current : String) (h : last.length = 4) :
    (∀ i : Nat, i ∈ Timer.char_pos_changed last current ↔
      (i < 4 ∧ current.data.getD i ' ' ≠ last.data.getD i ' ')) ∧
    Timer.char_pos_changed "2459" "2500" = [1, 2, 3] ∧
    (0 : Nat) ∉ Timer.char_pos_changed "2459" "2500" := by
  refine ⟨?_, by decide, by decide⟩
  intro i
  unfold Timer.char_pos_changed
  rw [h]
  simp [List.mem_filter, List.mem_range]

/-- Witness for C6 on `lastDisplayedDigits = "2459"`,
current string `"2500"`. -/
theorem c6_char_diff_witness :
    ((1 : Nat) ∈ Timer.char_pos_changed "2459" "2500" ↔
      (1 < 4 ∧ ("2500" : String).data.getD 1 ' ' ≠ ("2459" : String).data.getD 1 ' ')) ∧
    Timer.char_pos_changed "2459" "2500" = [1, 2, 3] :=
  ⟨(c6_char_diff "2459" "2500" (by decide)).1 1,
   (c6_char_diff "2459" "2500" (by decide)).2.1⟩

/-- Claim C7: after any refresh call, `lastDisplayedDigits` equals the
timer string evaluated at the commit instant (the last `_timer_str`
read of the call); hence a second refresh with no elapsed time diffs
the same string against itself and redraws nothing. -/
theorem c7_refresh_idempotent (st : TimerState) (initial : Bool)
    (t_diff t_commit t : Int) :
    (Timer._refresh_timer_windows st initial t_diff t_commit).1.last_displayed_time_str
      = Timer.timer_str_of st.end_time t_commit ∧
    (Timer._refresh_timer_windows
        ((Timer._refresh_timer_windows st initial t t).1) false t t).2 = [] := by
  refine ⟨rfl, ?_⟩
  show Timer.char_pos_changed (Timer.timer_str_of st.end_time t)
      (Timer.timer_str_of st.end_time t) = []
  exact char_pos_changed_self _

/-- Claim C8 (counterexample to the claim as stated): 86399 is a value of
`remainingSeconds()` (reached when the end time is one second in the
past, cf. C1), and there `formattedDigits()` is the six-character
string `"143959"`, not a four-character `MMSS`. -/
theorem c8_counterexample :
    Timer.seconds_left 0 1000000 = 86399 ∧
    Timer.timer_str_of 0 1000000 = "143959" ∧
    (Timer.timer_str_of 0 1000000).length ≠ 4 := by
  decide

/-- Claim C8 (amended): for every remaining-seconds value below 6000
(i.e. below 100 minutes — in particular for every value reachable
while `now ≤ endTime` and the configured minutes are ≤ 99),
`formattedDigits()` is the four-character concatenation of
`remainingSeconds() div 60` and `remainingSeconds() mod 60`, each
zero-padded to width 2; e.g. 65 seconds formats as `"0105"`. -/
theorem c8_formatted_digits (s : Nat) (h : s < 6000) :
    (Timer.timer_str s).length = 4 ∧
    Timer.timer_str s
      = Timer._pad (toString (s / 60)) ++ Timer._pad (toString (s % 60)) ∧
    Timer.timer_str 65 = "0105" := by
  refine ⟨?_, rfl, by decide⟩
  have h1 := pad_toString_length_two (s / 60) (by omega)
  have h2 := pad_toString_length_two (s % 60) (by omega)
  unfold Timer.timer_str Timer.mins_str Timer.secs_str
  rw [String.length_append, h1, h2]

/-- Witness for C8 at 65 remaining seconds. -/
theorem c8_formatted_digits_witness :
    (Timer.timer_str 65).length = 4 ∧ Timer.timer_str 65 = "0105" :=
  ⟨(c8_formatted_digits 65 (by decide)).1, (c8_formatted_digits 65 (by decide)).2.2⟩

/-- Claim C2 (code bug): the expiry tail of `start_timer_loop` is dead
code — for every timer and command-window state, every tick sequence,
and every header the running program could hold (no statement ever
assigns the attribute `_orig_options`, so its field is `none`),
breaking out of the `while` loop makes the exiting
`header._temp_change()` raise `AttributeError` from
`_restore_defaults`; the exception propagates (after the command
window is restored) before `_alarm()` or `switch_mode()` can run, so
no alarm fires and the Configuring sub-flow never opens — on expiry
and on key exits alike. -/
theorem c2_expiry_alarm_unreachable (st : TimerState) (cw : CmdWin)
    (sections : List (Option HeaderSection)) (opts : List (String × Nat))
    (bc : Nat) (now : Int) (ticks : List Timer.Tick) (input : Option Int)
    (t_switch t_refresh : Int) :
    Timer.start_timer_loop st cw ⟨sections, opts, bc, none⟩ now ticks input
        t_switch t_refresh
      = Except.error
          ("AttributeError: Header object has no attribute _orig_options",
           CmdWin._temp_change_restore (CmdWin._change_prompt
             { cw with blocking := false }
             (TimerState.cmdwin_prompt (Timer.begin_countdown st now).mode))) :=
  rfl
/-- Claim C10: when the countdown loop exits on a command key, the final
`set_seconds` is exactly the `_seconds_left` observed at the last
completed tick (and the state is untouched when the key arrived before
any tick completed), and the countdown initialisation of a subsequent
`start_timer_loop` sets `end_time = now + set_seconds` — i.e. stop
followed by start resumes from where the countdown stopped. -/
theorem c10_key_exit_resume :
    ∀ (ticks : List Timer.Tick) (st : TimerState) (k : Int),
      (Timer.timer_loop ticks st).2.1 = Timer.ExitKind.key k →
      ((Timer.timer_loop ticks st).2.2 = [] → (Timer.timer_loop ticks st).1 = st) ∧
      (∀ tl, (Timer.timer_loop ticks st).2.2.getLast? = some tl →
        (Timer.timer_loop ticks st).1.set_seconds
          = Timer.seconds_left st.end_time tl.now) ∧
      (∀ now2 : Int,
        (Timer.begin_countdown (Timer.timer_loop ticks st).1 now2).end_time
          = now2 + (Timer.timer_loop ticks st).1.set_seconds * 1000000) := by
  intro ticks
  induction ticks with
  | nil => intro st k hk; exact absurd hk (by simp [Timer.timer_loop])
  | cons tk rest ih =>
    intro st k
    simp only [Timer.timer_loop]
    split
    · exact fun _ => ⟨fun _ => rfl, fun tl htl => by simp at htl, fun _ => rfl⟩
    · split
      case isTrue hlt => intro hk; exact absurd hk (by simp)
      case isFalse hge =>
        intro hk
        refine ⟨fun hnil => by simp at hnil, ?_, fun _ => rfl⟩
        intro tl htl
        rcases hcons : (Timer.timer_loop rest _).2.2 with _ | ⟨c, cs⟩
        · have h1 := ((ih _ k hk).1) hcons
          rw [hcons] at htl
          simp only [List.getLast?_singleton, Option.some.injEq] at htl
          subst htl
          rw [h1]
          rfl
        · have h2 := ((ih _ k hk).2.1) tl
          rw [hcons] at htl
          simp only [List.getLast?_cons_cons] at htl
          rw [hcons] at h2
          exact h2 (by simpa using htl)

/-- Witness for C10: 61 seconds on the clock, one keyless tick one
second in, then the stop key — `set_seconds` ends at 60, the remaining
seconds at the last tick, and a restart at t = 7s would end at
7s + 60s. -/
theorem c10_key_exit_resume_witness :
    ((Timer.timer_loop [⟨-1, 1000000⟩, ⟨115, 1500000⟩]
        ⟨Mode.WORK, 61000000, 0, 61, "0101", 25, 5⟩).1.set_seconds
      = Timer.seconds_left 61000000 1000000) ∧
    ((Timer.begin_countdown
        (Timer.timer_loop [⟨-1, 1000000⟩, ⟨115, 1500000⟩]
          ⟨Mode.WORK, 61000000, 0, 61, "0101", 25, 5⟩).1 7000000).end_time
      = 7000000 + (Timer.timer_loop [⟨-1, 1000000⟩, ⟨115, 1500000⟩]
          ⟨Mode.WORK, 61000000, 0, 61, "0101", 25, 5⟩).1.set_seconds * 1000000) :=
  ⟨(c10_key_exit_resume [⟨-1, 1000000⟩, ⟨115, 1500000⟩]
      ⟨Mode.WORK, 61000000, 0, 61, "0101", 25, 5⟩ 115 (by decide)).2.1
      ⟨-1, 1000000⟩ (by decide),
   (c10_key_exit_resume [⟨-1, 1000000⟩, ⟨115, 1500000⟩]
      ⟨Mode.WORK, 61000000, 0, 61, "0101", 25, 5⟩ 115 (by decide)).2.2 7000000⟩

/-- Claim C9: during the Configuring sub-flow of `switch_mode`, a
non-numeric or empty entry (`int(...)` raises, modelled as `input =
none`) keeps the previous configured minutes of the now-current mode
unchanged and surfaces no error; a parsed integer `v` is clamped to
`[1, 99]` (99 above, 1 below, identity inside); and in both cases
`set_timer` then runs with the resulting minutes, so
`set_seconds = minutes*60 + 1` and `end_time = now + set_seconds`. -/
theorem c9_configure_parse_clamp (st : TimerState) (cw : CmdWin)
    (new_mode : Option Mode) (input : Option Int) (now t_refresh : Int) :
    (input = none →
      (Timer.switch_mode st cw new_mode input now t_refresh).1.minutes
        ((Timer.switch_mode st cw new_mode input now t_refresh).1.mode)
      = st.minutes ((Timer.switch_mode st cw new_mode input now t_refresh).1.mode)) ∧
    (∀ v : Int, input = some v →
      ((Timer.switch_mode st cw new_mode input now t_refresh).1.minutes
        ((Timer.switch_mode st cw new_mode input now t_refresh).1.mode)
        = (if v > 99 then 99 else if v < 1 then 1 else v)) ∧
      1 ≤ (Timer.switch_mode st cw new_mode input now t_refresh).1.minutes
        ((Timer.switch_mode st cw new_mode input now t_refresh).1.mode) ∧
      (Timer.switch_mode st cw new_mode input now t_refresh).1.minutes
        ((Timer.switch_mode st cw new_mode input now t_refresh).1.mode) ≤ 99) ∧
    (Timer.switch_mode st cw new_mode input now t_refresh).1.set_seconds
      = (Timer.switch_mode st cw new_mode input now t_refresh).1.minutes
          ((Timer.switch_mode st cw new_mode input now t_refresh).1.mode) * 60 + 1 ∧
    (Timer.switch_mode st cw new_mode input now t_refresh).1.end_time
      = now + (Timer.switch_mode st cw new_mode input now t_refresh).1.set_seconds
          * 1000000 := by
  have hcl : ∀ w : Int, 1 ≤ (if w > 99 then 99 else if w < 1 then 1 else w) ∧
      (if w > 99 then 99 else if w < 1 then 1 else w) ≤ 99 := by
    intro w
    constructor <;> (split <;> (try split) <;> omega)
  obtain ⟨mode, et, stt, ss, l, wm, bm⟩ := st
  cases input with
  | none =>
    refine ⟨fun _ => ?_, fun v hv => by simp at hv, ?_, ?_⟩ <;>
      (rcases new_mode with _ | m
       · cases mode <;> rfl
       · cases m <;> rfl)
  | some w =>
    refine ⟨fun hn => by simp at hn, fun v hv => ?_, ?_, ?_⟩
    · cases hv
      rcases new_mode with _ | m
      · cases mode
        · exact ⟨rfl, (hcl w).1, (hcl w).2⟩
        · exact ⟨rfl, (hcl w).1, (hcl w).2⟩
      · cases m
        · exact ⟨rfl, (hcl w).1, (hcl w).2⟩
        · exact ⟨rfl, (hcl w).1, (hcl w).2⟩
    · rcases new_mode with _ | m
      · cases mode <;> rfl
      · cases m <;> rfl
    · rcases new_mode with _ | m
      · cases mode <;> rfl
      · cases m <;> rfl

/-- Witness for C9: switching to Break with the typed value 150 clamps
to 99 and arms the timer with 99 minutes. -/
theorem c9_configure_parse_clamp_witness :
    ((Timer.switch_mode ⟨Mode.WORK, 0, 0, 1501, "2501", 25, 5⟩
        ⟨CmdWin.default_prompt, true⟩ (some Mode.BREAK) (some 150) 0 0).1.minutes
      ((Timer.switch_mode ⟨Mode.WORK, 0, 0, 1501, "2501", 25, 5⟩
        ⟨CmdWin.default_prompt, true⟩ (some Mode.BREAK) (some 150) 0 0).1.mode)
      = (if (150 : Int) > 99 then 99 else if (150 : Int) < 1 then 1 else 150)) ∧
    (Timer.switch_mode ⟨Mode.WORK, 0, 0, 1501, "2501", 25, 5⟩
        ⟨CmdWin.default_prompt, true⟩ (some Mode.BREAK) (some 150) 0 0).1.set_seconds
      = (Timer.switch_mode ⟨Mode.WORK, 0, 0, 1501, "2501", 25, 5⟩
          ⟨CmdWin.default_prompt, true⟩ (some Mode.BREAK) (some 150) 0 0).1.minutes
        ((Timer.switch_mode ⟨Mode.WORK, 0, 0, 1501, "2501", 25, 5⟩
          ⟨CmdWin.default_prompt, true⟩ (some Mode.BREAK) (some 150) 0 0).1.mode)
        * 60 + 1 :=
  ⟨((c9_configure_parse_clamp ⟨Mode.WORK, 0, 0, 1501, "2501", 25, 5⟩
      ⟨CmdWin.default_prompt, true⟩ (some Mode.BREAK) (some 150) 0 0).2.1
      150 rfl).1,
   (c9_configure_parse_clamp ⟨Mode.WORK, 0, 0, 1501, "2501", 25, 5⟩
      ⟨CmdWin.default_prompt, true⟩ (some Mode.BREAK) (some 150) 0 0).2.2.1⟩

/-- Claim C4 (code bug): the header restore required on every exit path
cannot happen — `Header._restore_defaults` reads `self._orig_options`,
an attribute no statement ever assigns (`__init__` stores
`orig_options`), so the restore raises `AttributeError`; `__init__`
itself calls `_restore_defaults`, so already constructing the header
with `main()`'s options (here on a 120-column screen) fails instead of
recording and restoring the snapshot. -/
theorem c4_header_restore_raises :
    Header.init main_header_options 120 GRAY_COLOR
      = Except.error "AttributeError: Header object has no attribute _orig_options"
    ∧ ∀ opts bc sec,
      Header._restore_defaults ⟨sec, opts, bc, none⟩
        = Except.error "AttributeError: Header object has no attribute _orig_options" :=
  ⟨rfl, fun _ _ _ => rfl⟩

end Tomodoro
